import Mathlib

/-!
Shallow embedding of the pswfa-app backend (src/server.js plus the Member
schema in src/unnamed/part_000) and proofs about the claims of its
specification.  Request handlers are modelled as pure functions from a
request and a server state to a response and a new state; the external
collaborators (bcrypt, JSON web tokens, the Mongo stores, the file area,
the mail relay, the JS Date parser) are modelled at their interface
boundary.
-/

namespace Pswfa

/-- JS `String.prototype.includes`: substring containment on the character
lists of the two strings. -/
def strIncludes (s q : String) : Bool :=
  decide (List.IsInfix q.data s.data)

/-- JS `String.prototype.toLowerCase`, modelled as per-character ASCII
lowercasing over the string's characters. -/
def jsToLower (s : String) : String :=
  ⟨s.data.map Char.toLower⟩

/-- JS `parseInt(s)` (decimal form): skip leading whitespace, read an
optional sign and then leading decimal digits; `none` models `NaN` (no
digit found). -/
def jsParseInt (s : String) : Option Int :=
  let cs := s.data.dropWhile (fun c => c = ' ' ∨ c = '\t' ∨ c = '\n' ∨ c = '\r')
  let signAndRest : Int × List Char :=
    match cs with
    | '-' :: rest => (-1, rest)
    | '+' :: rest => (1, rest)
    | _ => (1, cs)
  let ds := signAndRest.2.takeWhile Char.isDigit
  if ds.isEmpty then none
  else some (signAndRest.1 * (Int.ofNat (ds.foldl (fun acc c => acc * 10 + (c.toNat - 48)) 0)))

/-- Model of a signed JWT issued by `jwt.sign({id, role}, JWT_SECRET,
{expiresIn: '1h'})`: the signature is modelled by carrying the signing
secret inside the token. `exp` is in seconds since epoch. -/
structure Token where
  id : Nat
  role : String
  exp : Nat
  secret : String
deriving Repr, DecidableEq

/-- `jwt.sign({id, role}, secret, {expiresIn: '1h'})` at time `now`
(seconds): the expiry is one hour after issuance. -/
def jwtSign (id : Nat) (role : String) (secret : String) (now : Nat) : Token :=
  { id := id, role := role, exp := now + 3600, secret := secret }

/-- Outcome of the middleware chain in front of a handler: either an
early error response or the identity attached to the request
(`req.userId`, `req.userRole`). -/
inductive AuthOutcome where
  | fail (status : Nat) (message : String)
  | pass (userId : Nat) (userRole : String)
deriving Repr, DecidableEq

/-- True on the `pass` constructor. -/
def AuthOutcome.isPass : AuthOutcome → Bool
  | .fail _ _ => false
  | .pass _ _ => true

/-- The `verifyToken` middleware (server.js lines 63-72).  `auth = none`
models a request with no bearer token in the Authorization header
(401 Please login); a present token whose signature does not match the
server secret, or that is at/past its expiry instant, fails jwt.verify
(403 Invalid session). jsonwebtoken rejects a token when the clock is at
or past `exp`. -/
def verifyToken (auth : Option Token) (secret : String) (now : Nat) : AuthOutcome :=
  match auth with
  | none => .fail 401 "Please login"
  | some t =>
    if t.secret = secret ∧ now < t.exp then .pass t.id t.role
    else .fail 403 "Invalid session"

/-- The `isAdmin` middleware (server.js lines 75-80), applied after a
successful `verifyToken`. -/
def isAdminCheck (userId : Nat) (userRole : String) : AuthOutcome :=
  if userRole ≠ "admin" then .fail 403 "Admin access required"
  else .pass userId userRole

/-- The `verifyToken, isAdmin` middleware chain in front of every
admin-only endpoint. -/
def adminGate (auth : Option Token) (secret : String) (now : Nat) : AuthOutcome :=
  match verifyToken auth secret now with
  | .fail s m => .fail s m
  | .pass uid role => isAdminCheck uid role

/-- Modelled from the spec: the User schema (src/models/User.js is not
under src/). Per §3, a User is an email, a (hashed) password and a role;
the register handler in server.js fills exactly these fields. `_id` is
the store-generated id. -/
structure User where
  _id : Nat
  email : String
  password : String
  role : String
deriving Repr, DecidableEq

/-- The Member schema (src/unnamed/part_000).  Date-typed paths hold the
result of the JS `new Date(string)` cast, modelled as `Option Int`
(milliseconds; `none` is an Invalid Date, which the store rejects at
save).  `farmingExperience` holds the result of `parseInt`, `none`
modelling `NaN` (also rejected at save).  The two referee fields are the
only optional strings; `passportPhotos` defaults to the empty list. -/
structure Member where
  _id : Nat
  surname : String
  otherNames : String
  dateOfBirth : Option Int
  gender : String
  occupation : String
  qualification : String
  localGovernmentOfOrigin : String
  residentialAddress : String
  phone : String
  nextOfKin : String
  enrollmentStatus : String
  dateEnrollment : Option Int
  shortFarmHistory : String
  refereeLgaCoordinator : Option String
  refereeGroupCoordinator : Option String
  passportPhotos : List String
  cropVariety : String
  farmingExperience : Option Int
  irrigationMethod : String
  membershipStatus : String
  location : String
  farmSize : String
  contact : String
deriving Repr, DecidableEq

/-- Modelled from the spec: the News schema (src/models/News.js is not
under src/).  Per §3, News is { title, description, imageUrl?, videoUrl?,
createdAt }; server.js reads and writes exactly these fields. -/
structure NewsRec where
  _id : Nat
  title : String
  description : String
  imageUrl : Option String
  videoUrl : Option String
  createdAt : Nat
deriving Repr, DecidableEq

/-- Modelled from the spec: the Contact schema (src/models/Contact.js is
not under src/).  Per §3, a Contact holds the submitted name, email and
message; the handler stores exactly these fields. -/
structure ContactRec where
  name : String
  email : String
  message : String
deriving Repr, DecidableEq

/-- The whole observable server state: the four store collections, the
file area (disk paths of stored uploads) and a fresh-id counter modelling
store-generated ids. -/
structure ServerState where
  users : List User
  members : List Member
  news : List NewsRec
  contacts : List ContactRec
  files : List String
  nextId : Nat
deriving Repr, DecidableEq

/-- Model of `bcrypt.hash(p, 10)` at its interface boundary: an injective
tagging of the password.  Only the interface law
`bcompare p (bhash p) = true` is relied on. -/
def bhash (p : String) : String :=
  "$2b$10$" ++ p

/-- Model of `bcrypt.compare(p, h)`: true exactly when `h` is the hash of
`p`. -/
def bcompare (p h : String) : Bool :=
  bhash p = h

/-- A file arriving in the multipart request, as multer sees it. Size is
in bytes. -/
structure FileUpload where
  fieldname : String
  originalname : String
  mimetype : String
  size : Nat
deriving Repr, DecidableEq

/-- A file accepted and written by multer: its field name and its
generated on-disk name. -/
structure StoredFile where
  fieldname : String
  filename : String
deriving Repr, DecidableEq

/-- The multer `fileFilter` (server.js lines 31-36): only the
`passportPhotos` field is restricted, to the JPEG/PNG allow-list. -/
def fileFilter (f : FileUpload) : Bool :=
  !(f.fieldname = "passportPhotos" &&
    !(f.mimetype = "image/jpeg" || f.mimetype = "image/jpg" || f.mimetype = "image/png"))

/-- The per-file size ceiling: `limits.fileSize = 10 * 1024 * 1024`. -/
def fileSizeLimit : Nat := 10 * 1024 * 1024

/-- A file passes the upload step when the filter accepts it and it is
within the size limit. -/
def acceptFile (f : FileUpload) : Bool :=
  fileFilter f && f.size ≤ fileSizeLimit

/-- The generated on-disk name: `Date.now() + '-' + file.originalname`
(server.js line 25). -/
def genFilename (now : Nat) (f : FileUpload) : String :=
  toString now ++ "-" ++ f.originalname

/-- The multer middleware `upload` over the files of one request: if
every file passes the filter and the size limit, all are stored under
generated names; if any file fails, the whole upload step errors with
that file's message and multer removes what it had stored, so nothing
from the request remains. -/
def runUpload (now : Nat) (files : List FileUpload) : Except String (List StoredFile) :=
  match files.find? (fun f => !acceptFile f) with
  | some f =>
    if fileFilter f then .error "File too large"
    else .error "Passport photo must be JPG, JPEG, or PNG"
  | none => .ok (files.map (fun f => { fieldname := f.fieldname, filename := genFilename now f }))

/-- The public URL path recorded for a stored file: `/uploads/<name>`. -/
def urlOf (sf : StoredFile) : String :=
  "/uploads/" ++ sf.filename

/-- The disk path of a stored upload, as the delete handler rebuilds it:
`public` + url. -/
def diskOf (sf : StoredFile) : String :=
  "public" ++ urlOf sf

/-- Response bodies the handlers produce (JSON payloads). -/
inductive Body where
  | empty
  | msg (message : String)
  | token (t : Token)
  | userInfo (u : Option (String × String))
  | member (m : Member)
  | members (l : List Member)
  | newsItems (l : List NewsRec)
deriving Repr, DecidableEq

/-- An HTTP response: status code and JSON body. -/
structure Response where
  status : Nat
  body : Body
deriving Repr, DecidableEq

/-- POST /api/register (server.js lines 83-97): both fields required,
duplicate email rejected, password stored hashed, role hardwired to
"user". -/
def register (email password : String) (st : ServerState) : Response × ServerState :=
  if email = "" ∨ password = "" then
    (⟨400, .msg "Email and password required"⟩, st)
  else
    match st.users.find? (fun u => u.email = email) with
    | some _ => (⟨400, .msg "Email already used"⟩, st)
    | none =>
      let u : User := { _id := st.nextId, email := email, password := bhash password, role := "user" }
      (⟨201, .msg "Registered successfully"⟩,
       { st with users := st.users ++ [u], nextId := st.nextId + 1 })

/-- POST /api/login (server.js lines 99-107): unknown email or
non-matching password is a 401; otherwise a fresh one-hour token carrying
the stored id and role is issued. -/
def login (email password : String) (secret : String) (now : Nat)
    (st : ServerState) : Response × ServerState :=
  match st.users.find? (fun u => u.email = email) with
  | none => (⟨401, .msg "Invalid email or password"⟩, st)
  | some u =>
    if bcompare password u.password then
      (⟨200, .token (jwtSign u._id u.role secret now)⟩, st)
    else (⟨401, .msg "Invalid email or password"⟩, st)

/-- GET /api/user (server.js lines 109-112): token-protected; returns the
email and role of the token's user (null body when the id is unknown,
still 200). -/
def getUser (auth : Option Token) (secret : String) (now : Nat)
    (st : ServerState) : Response × ServerState :=
  match verifyToken auth secret now with
  | .fail s m => (⟨s, .msg m⟩, st)
  | .pass uid _ =>
    (⟨200, .userInfo ((st.users.find? (fun u => u._id = uid)).map (fun u => (u.email, u.role)))⟩, st)

/-- The search filter of GET /api/members (server.js lines 117-124): the
query is lowercased once; the concatenated name, the location and the
contact fields are compared lowercased, but the phone field is matched
as-is against the lowercased query. -/
def memberMatches (searchQuery : String) (m : Member) : Bool :=
  strIncludes (jsToLower (m.surname ++ " " ++ m.otherNames)) searchQuery ||
  strIncludes (jsToLower m.location) searchQuery ||
  strIncludes m.phone searchQuery ||
  strIncludes (jsToLower m.contact) searchQuery

/-- GET /api/members (server.js lines 114-126): admin-only; with a
non-empty search query, filters with `memberMatches`, else returns all
members. -/
def getMembers (auth : Option Token) (secret : String) (now : Nat)
    (search : Option String) (st : ServerState) : Response × ServerState :=
  match adminGate auth secret now with
  | .fail s m => (⟨s, .msg m⟩, st)
  | .pass _ _ =>
    let searchQuery := match search with
      | some s => jsToLower s
      | none => ""
    if searchQuery = "" then (⟨200, .members st.members⟩, st)
    else (⟨200, .members (st.members.filter (memberMatches searchQuery))⟩, st)

/-- GET /api/members/:id (server.js lines 173-181): admin-only; 404 when
the id is unknown. -/
def getMemberById (auth : Option Token) (secret : String) (now : Nat)
    (id : Nat) (st : ServerState) : Response × ServerState :=
  match adminGate auth secret now with
  | .fail s m => (⟨s, .msg m⟩, st)
  | .pass _ _ =>
    match st.members.find? (fun m => m._id = id) with
    | none => (⟨404, .msg "Member not found"⟩, st)
    | some m => (⟨200, .member m⟩, st)

/-- The request body of POST /api/members as the handler destructures it
(server.js line 131).  Required fields are plain strings (an absent field
and an empty one behave identically through the handler); the three
fields the handler never checks are `Option String`, `none` modelling an
absent field (where the store default can apply). -/
structure MemberBody where
  surname : String
  otherNames : String
  dateOfBirth : String
  gender : String
  occupation : String
  qualification : String
  localGovernmentOfOrigin : String
  residentialAddress : String
  phone : String
  nextOfKin : String
  enrollmentStatus : String
  dateEnrollment : String
  shortFarmHistory : String
  refereeLgaCoordinator : Option String
  refereeGroupCoordinator : Option String
  cropVariety : String
  farmingExperience : String
  irrigationMethod : String
  membershipStatus : Option String
  location : String
  farmSize : String
  contact : String
deriving Repr, DecidableEq

/-- The handler's required-field truthiness check (server.js line 132):
true when some required field is empty/absent. -/
def memberBodyMissing (b : MemberBody) : Bool :=
  b.surname = "" || b.otherNames = "" || b.dateOfBirth = "" || b.gender = "" ||
  b.occupation = "" || b.qualification = "" || b.localGovernmentOfOrigin = "" ||
  b.residentialAddress = "" || b.phone = "" || b.nextOfKin = "" ||
  b.enrollmentStatus = "" || b.dateEnrollment = "" || b.shortFarmHistory = "" ||
  b.cropVariety = "" || b.farmingExperience = "" || b.irrigationMethod = "" ||
  b.location = "" || b.farmSize = "" || b.contact = ""

/-- The store-side validation `member.save()` runs against the Member
schema (src/unnamed/part_000): required paths present and non-empty,
Date and Number casts successful, enum paths restricted to their allowed
values (`membershipStatus` after its "Pending" default). -/
def memberValid (m : Member) : Bool :=
  m.surname ≠ "" && m.otherNames ≠ "" && m.dateOfBirth.isSome &&
  (m.gender = "Not specified" || m.gender = "Male" || m.gender = "Female") &&
  m.occupation ≠ "" && m.qualification ≠ "" && m.localGovernmentOfOrigin ≠ "" &&
  m.residentialAddress ≠ "" && m.phone ≠ "" && m.nextOfKin ≠ "" &&
  (m.enrollmentStatus = "Direct Farmer" || m.enrollmentStatus = "Group Farmer") &&
  m.dateEnrollment.isSome && m.shortFarmHistory ≠ "" && m.cropVariety ≠ "" &&
  m.farmingExperience.isSome &&
  (m.irrigationMethod = "Rainfed" || m.irrigationMethod = "Drip" || m.irrigationMethod = "Flood") &&
  (m.membershipStatus = "Active" || m.membershipStatus = "Inactive" || m.membershipStatus = "Pending") &&
  m.location ≠ "" && m.farmSize ≠ "" && m.contact ≠ ""

/-- The Member document the handler assembles (server.js lines 135-161):
dates go through `new Date` (the `parseDate` collaborator), the
experience field through `parseInt`, the membership status through the
schema default, and every stored file of the request — whatever its field
name — lands in `passportPhotos`. -/
def buildMember (parseDate : String → Option Int) (id : Nat) (b : MemberBody)
    (stored : List StoredFile) : Member :=
  { _id := id
    surname := b.surname
    otherNames := b.otherNames
    dateOfBirth := parseDate b.dateOfBirth
    gender := b.gender
    occupation := b.occupation
    qualification := b.qualification
    localGovernmentOfOrigin := b.localGovernmentOfOrigin
    residentialAddress := b.residentialAddress
    phone := b.phone
    nextOfKin := b.nextOfKin
    enrollmentStatus := b.enrollmentStatus
    dateEnrollment := parseDate b.dateEnrollment
    shortFarmHistory := b.shortFarmHistory
    refereeLgaCoordinator := b.refereeLgaCoordinator
    refereeGroupCoordinator := b.refereeGroupCoordinator
    passportPhotos := stored.map urlOf
    cropVariety := b.cropVariety
    farmingExperience := jsParseInt b.farmingExperience
    irrigationMethod := b.irrigationMethod
    membershipStatus := b.membershipStatus.getD "Pending"
    location := b.location
    farmSize := b.farmSize
    contact := b.contact }

/-- POST /api/members (server.js lines 128-171): admin-only; the upload
step runs first (a failed upload is a 400 with nothing stored); a missing
required field is a 400 after the files are already on disk (no rollback);
otherwise the assembled Member is saved — 201 with the document, or 500
when the schema rejects it. -/
def postMembers (parseDate : String → Option Int) (auth : Option Token)
    (secret : String) (now : Nat) (b : MemberBody) (files : List FileUpload)
    (st : ServerState) : Response × ServerState :=
  match adminGate auth secret now with
  | .fail s m => (⟨s, .msg m⟩, st)
  | .pass _ _ =>
    match runUpload now files with
    | .error e => (⟨400, .msg e⟩, st)
    | .ok stored =>
      let st1 := { st with files := st.files ++ stored.map diskOf }
      if memberBodyMissing b then
        (⟨400, .msg "All required fields must be filled"⟩, st1)
      else
        let m := buildMember parseDate st1.nextId b stored
        if memberValid m then
          (⟨201, .member m⟩,
           { st1 with members := st1.members ++ [m], nextId := st1.nextId + 1 })
        else (⟨500, .msg "Error saving member"⟩, st1)

/-- GET /api/news (server.js lines 183-186): public; all news, newest
first. -/
def listNews (st : ServerState) : Response :=
  ⟨200, .newsItems (st.news.mergeSort (fun a b => decide (b.createdAt ≤ a.createdAt)))⟩

/-- The forEach over `req.files` in the news handlers (server.js lines
200-206): the url of the last file stored under the given field name, if
any. -/
def lastFieldUrl (stored : List StoredFile) (name : String) : Option String :=
  ((stored.filter (fun f => f.fieldname = name)).getLast?).map urlOf

/-- POST /api/news (server.js lines 188-211): admin-only; upload first,
then title/description required, then the News document is saved with the
urls of the files stored under the `image` and `video` fields. -/
def postNews (auth : Option Token) (secret : String) (now : Nat)
    (title description : String) (files : List FileUpload)
    (st : ServerState) : Response × ServerState :=
  match adminGate auth secret now with
  | .fail s m => (⟨s, .msg m⟩, st)
  | .pass _ _ =>
    match runUpload now files with
    | .error e => (⟨400, .msg e⟩, st)
    | .ok stored =>
      let st1 := { st with files := st.files ++ stored.map diskOf }
      if title = "" ∨ description = "" then
        (⟨400, .msg "Title and description required"⟩, st1)
      else
        let n : NewsRec :=
          { _id := st1.nextId, title := title, description := description,
            imageUrl := lastFieldUrl stored "image",
            videoUrl := lastFieldUrl stored "video", createdAt := now }
        (⟨201, .msg "News added successfully"⟩,
         { st1 with news := st1.news ++ [n], nextId := st1.nextId + 1 })

/-- PUT /api/news/:id (server.js lines 213-235): admin-only; upload
first, then title/description required; `findByIdAndUpdate` overwrites
only the keys present in the update, so media urls are replaced only when
a new file arrived under that field. -/
def putNews (auth : Option Token) (secret : String) (now : Nat) (id : Nat)
    (title description : String) (files : List FileUpload)
    (st : ServerState) : Response × ServerState :=
  match adminGate auth secret now with
  | .fail s m => (⟨s, .msg m⟩, st)
  | .pass _ _ =>
    match runUpload now files with
    | .error e => (⟨400, .msg e⟩, st)
    | .ok stored =>
      let st1 := { st with files := st.files ++ stored.map diskOf }
      if title = "" ∨ description = "" then
        (⟨400, .msg "Title and description required"⟩, st1)
      else
        match st1.news.find? (fun n => n._id = id) with
        | none => (⟨404, .msg "News not found"⟩, st1)
        | some _ =>
          let upd := fun (n : NewsRec) =>
            if n._id = id then
              { n with
                title := title
                description := description
                imageUrl := (lastFieldUrl stored "image").orElse (fun _ => n.imageUrl)
                videoUrl := (lastFieldUrl stored "video").orElse (fun _ => n.videoUrl) }
            else n
          (⟨200, .msg "News updated successfully"⟩, { st1 with news := st1.news.map upd })

/-- One conditional unlink of the delete-news handler: when the record
holds a media url, the file at `public` + url is removed from the file
area if it exists there (`fs.existsSync` then `fs.unlinkSync`). -/
def removeUrl (fs : List String) : Option String → List String
  | some u => fs.filter (fun p => p ≠ "public" ++ u)
  | none => fs

/-- DELETE /api/news/:id (server.js lines 237-258): admin-only; unknown
id is a 404 with nothing touched; otherwise the image and video files of
the record (rebuilt as `public` + url) are unlinked when they exist, and
the record is deleted. -/
def deleteNews (auth : Option Token) (secret : String) (now : Nat) (id : Nat)
    (st : ServerState) : Response × ServerState :=
  match adminGate auth secret now with
  | .fail s m => (⟨s, .msg m⟩, st)
  | .pass _ _ =>
    match st.news.find? (fun n => n._id = id) with
    | none => (⟨404, .msg "News not found"⟩, st)
    | some n =>
      (⟨200, .msg "News deleted successfully"⟩,
       { st with
         files := removeUrl (removeUrl st.files n.imageUrl) n.videoUrl
         news := st.news.filter (fun n => n._id ≠ id) })

/-- POST /api/contact (server.js lines 260-279): public; all three fields
required; the Contact is saved before the relay is attempted, and a relay
failure (`relayOk = false`) still answers 201 with a degraded message. -/
def postContact (name email message : String) (relayOk : Bool)
    (st : ServerState) : Response × ServerState :=
  if name = "" ∨ email = "" ∨ message = "" then
    (⟨400, .msg "All fields required"⟩, st)
  else
    let st1 := { st with contacts := st.contacts ++ [⟨name, email, message⟩] }
    if relayOk then (⟨201, .msg "Message sent successfully"⟩, st1)
    else (⟨201, .msg "Message saved, but email notification failed"⟩, st1)

/-- A sequence of register requests, folded over the state. -/
def runRegisters (reqs : List (String × String)) (st : ServerState) : ServerState :=
  reqs.foldl (fun s r => (register r.1 r.2 s).2) st

/-- The token-protected routes of the router, with the inputs each
handler consumes.  GET /api/news, register, login and the contact form
are the only public routes and are not listed here. -/
inductive ApiRequest where
  | getUserReq
  | getMembersReq (search : Option String)
  | getMemberByIdReq (id : Nat)
  | postMembersReq (b : MemberBody) (files : List FileUpload)
  | postNewsReq (title description : String) (files : List FileUpload)
  | putNewsReq (id : Nat) (title description : String) (files : List FileUpload)
  | deleteNewsReq (id : Nat)
deriving Repr

/-- Dispatch of a token-protected request to its handler, exactly as the
router wires the middleware chains in server.js. -/
def protectedDispatch (parseDate : String → Option Int) (auth : Option Token)
    (secret : String) (now : Nat) (req : ApiRequest)
    (st : ServerState) : Response × ServerState :=
  match req with
  | .getUserReq => getUser auth secret now st
  | .getMembersReq search => getMembers auth secret now search st
  | .getMemberByIdReq id => getMemberById auth secret now id st
  | .postMembersReq b files => postMembers parseDate auth secret now b files st
  | .postNewsReq title description files => postNews auth secret now title description files st
  | .putNewsReq id title description files => putNews auth secret now id title description files st
  | .deleteNewsReq id => deleteNews auth secret now id st

/-- The claimed search predicate of C6, written from the spec's words: the
query matches a member when the name, location, phone or contact field
contains it as a case-insensitive substring (the member's name being its
surname and other names). -/
def claimedMatch (q : String) (m : Member) : Bool :=
  strIncludes (jsToLower (m.surname ++ " " ++ m.otherNames)) (jsToLower q) ||
  strIncludes (jsToLower m.location) (jsToLower q) ||
  strIncludes (jsToLower m.phone) (jsToLower q) ||
  strIncludes (jsToLower m.contact) (jsToLower q)

/-- An empty server state, before any request. -/
def initialState : ServerState :=
  { users := [], members := [], news := [], contacts := [], files := [], nextId := 0 }

/-- A token signed with secret "s" for an admin, expiring at second 3600. -/
def adminToken : Token := { id := 0, role := "admin", exp := 3600, secret := "s" }

/-- A token signed with secret "s" for a plain user, expiring at second 3600. -/
def userToken : Token := { id := 1, role := "user", exp := 3600, secret := "s" }

/-- A create-member body with every required field non-empty and every
enum field inside its allowed values. -/
def okBody : MemberBody :=
  { surname := "A", otherNames := "B", dateOfBirth := "2020-01-01", gender := "Male",
    occupation := "Farmer", qualification := "BSc", localGovernmentOfOrigin := "L",
    residentialAddress := "R", phone := "080", nextOfKin := "N",
    enrollmentStatus := "Direct Farmer", dateEnrollment := "2021-01-01",
    shortFarmHistory := "H", refereeLgaCoordinator := none, refereeGroupCoordinator := none,
    cropVariety := "Maize", farmingExperience := "5", irrigationMethod := "Drip",
    membershipStatus := none, location := "Lagos", farmSize := "2", contact := "C" }

/-- The same body with a non-empty gender outside the schema's enum. -/
def badGenderBody : MemberBody := { okBody with gender := "X" }

/-- A member whose phone field holds letters, for the search claims. -/
def phoneMember : Member :=
  { _id := 0, surname := "x", otherNames := "y", dateOfBirth := some 0, gender := "Male",
    occupation := "o", qualification := "q", localGovernmentOfOrigin := "l",
    residentialAddress := "r", phone := "AB1", nextOfKin := "n",
    enrollmentStatus := "Direct Farmer", dateEnrollment := some 0, shortFarmHistory := "h",
    refereeLgaCoordinator := none, refereeGroupCoordinator := none, passportPhotos := [],
    cropVariety := "c", farmingExperience := some 1, irrigationMethod := "Drip",
    membershipStatus := "Pending", location := "loc", farmSize := "1", contact := "c" }

/-- A news record with an image and no video. -/
def newsItem : NewsRec :=
  { _id := 5, title := "t", description := "d", imageUrl := some "/uploads/img.png",
    videoUrl := none, createdAt := 10 }

/-- A state holding one news record and two files, one of which is the
record's image. -/
def newsState : ServerState :=
  { initialState with
    news := [newsItem]
    files := ["public/uploads/img.png", "public/uploads/other.bin"] }

/-- A state with one registered user, as produced by the register
handler. -/
def oneUserState : ServerState := (register "a@b.c" "pw" initialState).2

/-- A PDF arriving on the passport-photo field. -/
def badFile : FileUpload :=
  { fieldname := "passportPhotos", originalname := "a.pdf",
    mimetype := "application/pdf", size := 100 }

/-- A state with a single member, for the search claims. -/
def searchState : ServerState := { initialState with members := [phoneMember] }

/-!  Helper lemmas about the middleware chain. -/

theorem verifyToken_missing (secret : String) (now : Nat) :
    verifyToken none secret now = .fail 401 "Please login" := rfl

theorem verifyToken_invalid (t : Token) (secret : String) (now : Nat)
    (h : t.secret ≠ secret ∨ t.exp ≤ now) :
    verifyToken (some t) secret now = .fail 403 "Invalid session" := by
  have hn : ¬(t.secret = secret ∧ now < t.exp) := by
    rcases h with h | h
    · exact fun hc => h hc.1
    · exact fun hc => absurd hc.2 (not_lt.mpr h)
  simp only [verifyToken]
  rw [if_neg hn]

theorem verifyToken_valid (t : Token) (secret : String) (now : Nat)
    (hs : t.secret = secret) (hexp : now < t.exp) :
    verifyToken (some t) secret now = .pass t.id t.role := by
  simp only [verifyToken]
  rw [if_pos ⟨hs, hexp⟩]

theorem adminGate_of_verify_fail (auth : Option Token) (secret : String) (now s : Nat)
    (m : String) (h : verifyToken auth secret now = .fail s m) :
    adminGate auth secret now = .fail s m := by
  simp [adminGate, h]

theorem adminGate_nonAdmin (t : Token) (secret : String) (now : Nat)
    (hs : t.secret = secret) (hexp : now < t.exp) (hr : t.role ≠ "admin") :
    adminGate (some t) secret now = .fail 403 "Admin access required" := by
  simp [adminGate, verifyToken_valid t secret now hs hexp, isAdminCheck, hr]

theorem adminGate_pass (t : Token) (secret : String) (now : Nat)
    (hs : t.secret = secret) (hexp : now < t.exp) (hr : t.role = "admin") :
    adminGate (some t) secret now = .pass t.id t.role := by
  simp [adminGate, verifyToken_valid t secret now hs hexp, isAdminCheck, hr]

theorem dispatch_auth_fail (pd : String → Option Int) (auth : Option Token)
    (secret : String) (now : Nat) (req : ApiRequest) (st : ServerState)
    (s : Nat) (m : String) (h : verifyToken auth secret now = .fail s m) :
    protectedDispatch pd auth secret now req st = (⟨s, .msg m⟩, st) := by
  have hg := adminGate_of_verify_fail auth secret now s m h
  cases req <;>
    simp [protectedDispatch, getUser, getMembers, getMemberById, postMembers,
      postNews, putNews, deleteNews, h, hg]

theorem login_token_shape (e p secret : String) (now : Nat) (st : ServerState)
    (tok : Token) (h : (login e p secret now st).1.body = .token tok) :
    ∃ u, st.users.find? (fun v => v.email = e) = some u ∧ u ∈ st.users ∧
      tok = jwtSign u._id u.role secret now := by
  unfold login at h
  cases hf : st.users.find? (fun v => v.email = e) with
  | none => rw [hf] at h; simp at h
  | some u =>
    rw [hf] at h
    by_cases hb : bcompare p u.password
    · simp [hb] at h
      exact ⟨u, rfl, List.mem_of_find?_eq_some hf, h.symm⟩
    · simp [hb] at h

theorem register_preserves_user_roles (e p : String) (st : ServerState)
    (h : ∀ u ∈ st.users, u.role = "user") :
    ∀ u ∈ ((register e p st).2).users, u.role = "user" := by
  intro u hu
  unfold register at hu
  by_cases hc : e = "" ∨ p = ""
  · rw [if_pos hc] at hu; exact h u hu
  · rw [if_neg hc] at hu
    cases hf : st.users.find? (fun v => v.email = e) with
    | some v => rw [hf] at hu; exact h u hu
    | none =>
      rw [hf] at hu
      simp only [List.mem_append, List.mem_singleton] at hu
      rcases hu with hu | hu
      · exact h u hu
      · rw [hu]

theorem runRegisters_roles (reqs : List (String × String)) (st : ServerState)
    (h : ∀ u ∈ st.users, u.role = "user") :
    ∀ u ∈ (runRegisters reqs st).users, u.role = "user" := by
  induction reqs generalizing st with
  | nil => exact h
  | cons r rs ih =>
    simp only [runRegisters, List.foldl]
    exact ih ((register r.1 r.2 st).2) (register_preserves_user_roles r.1 r.2 st h)

/-- Claim C1: for every admin-only endpoint (list members, get member,
create member, create news, update news, delete news), a request carrying
a valid token whose role is not "admin" is rejected with status 403 and
the handler body is never reached: the response is the gate's
"Admin access required" error and the server state is unchanged. -/
theorem claimC1 (t : Token) (secret : String) (now : Nat) (st : ServerState)
    (search : Option String) (mid nid : Nat) (pd : String → Option Int)
    (b : MemberBody) (files : List FileUpload) (title description : String)
    (hs : t.secret = secret) (hexp : now < t.exp) (hr : t.role ≠ "admin") :
    getMembers (some t) secret now search st = (⟨403, .msg "Admin access required"⟩, st) ∧
    getMemberById (some t) secret now mid st = (⟨403, .msg "Admin access required"⟩, st) ∧
    postMembers pd (some t) secret now b files st = (⟨403, .msg "Admin access required"⟩, st) ∧
    postNews (some t) secret now title description files st = (⟨403, .msg "Admin access required"⟩, st) ∧
    putNews (some t) secret now nid title description files st = (⟨403, .msg "Admin access required"⟩, st) ∧
    deleteNews (some t) secret now nid st = (⟨403, .msg "Admin access required"⟩, st) := by
  have hg := adminGate_nonAdmin t secret now hs hexp hr
  refine ⟨?_, ?_, ?_, ?_, ?_, ?_⟩ <;>
    simp [getMembers, getMemberById, postMembers, postNews, putNews, deleteNews, hg]

/-- Witness for C1: a concrete non-admin token is rejected with 403 on
all six admin-only endpoints. -/
theorem claimC1_witness :
    getMembers (some userToken) "s" 0 none initialState = (⟨403, .msg "Admin access required"⟩, initialState) ∧
    getMemberById (some userToken) "s" 0 7 initialState = (⟨403, .msg "Admin access required"⟩, initialState) ∧
    postMembers (fun _ => some 0) (some userToken) "s" 0 okBody [] initialState = (⟨403, .msg "Admin access required"⟩, initialState) ∧
    postNews (some userToken) "s" 0 "t" "d" [] initialState = (⟨403, .msg "Admin access required"⟩, initialState) ∧
    putNews (some userToken) "s" 0 7 "t" "d" [] initialState = (⟨403, .msg "Admin access required"⟩, initialState) ∧
    deleteNews (some userToken) "s" 0 7 initialState = (⟨403, .msg "Admin access required"⟩, initialState) :=
  claimC1 userToken "s" 0 initialState none 7 7 (fun _ => some 0) okBody [] "t" "d"
    rfl (by decide) (by decide)

/-- Claim C2: on every protected endpoint, a request with no bearer token
fails with the MissingToken error (401 "Please login"), and a token whose
signature does not match the secret or whose expiry has passed fails with
the InvalidToken error (403 "Invalid session"); a token issued by login
expires exactly 3600 seconds after issuance, and once that window has
passed every protected endpoint rejects it, the state unchanged. -/
theorem claimC2 (pd : String → Option Int) (req : ApiRequest) (st st2 : ServerState)
    (secret e p : String) (t tok : Token) (now now0 : Nat)
    (hbad : t.secret ≠ secret ∨ t.exp ≤ now)
    (hiss : (login e p secret now0 st2).1.body = .token tok)
    (hold : now0 + 3600 ≤ now) :
    protectedDispatch pd none secret now req st = (⟨401, .msg "Please login"⟩, st) ∧
    protectedDispatch pd (some t) secret now req st = (⟨403, .msg "Invalid session"⟩, st) ∧
    tok.exp = now0 + 3600 ∧
    protectedDispatch pd (some tok) secret now req st = (⟨403, .msg "Invalid session"⟩, st) := by
  obtain ⟨u, _, _, htok⟩ := login_token_shape e p secret now0 st2 tok hiss
  have hexp : tok.exp = now0 + 3600 := by rw [htok]; rfl
  refine ⟨?_, ?_, hexp, ?_⟩
  · exact dispatch_auth_fail pd none secret now req st 401 "Please login"
      (verifyToken_missing secret now)
  · exact dispatch_auth_fail pd (some t) secret now req st 403 "Invalid session"
      (verifyToken_invalid t secret now hbad)
  · refine dispatch_auth_fail pd (some tok) secret now req st 403 "Invalid session"
      (verifyToken_invalid tok secret now (Or.inr ?_))
    rw [hexp]; exact hold

/-- Witness for C2: with a concrete one-user store, the login-issued
token with expiry 3600 is rejected on GET /api/user at second 3600, as is
a wrong-secret token, and a missing token is a 401. -/
theorem claimC2_witness :
    protectedDispatch (fun _ => some 0) none "s" 3600 .getUserReq initialState = (⟨401, .msg "Please login"⟩, initialState) ∧
    protectedDispatch (fun _ => some 0) (some { id := 9, role := "admin", exp := 9999, secret := "w" }) "s" 3600 .getUserReq initialState = (⟨403, .msg "Invalid session"⟩, initialState) ∧
    (jwtSign 0 "user" "s" 0).exp = 0 + 3600 ∧
    protectedDispatch (fun _ => some 0) (some (jwtSign 0 "user" "s" 0)) "s" 3600 .getUserReq initialState = (⟨403, .msg "Invalid session"⟩, initialState) :=
  claimC2 (fun _ => some 0) .getUserReq initialState oneUserState "s" "a@b.c" "pw"
    { id := 9, role := "admin", exp := 9999, secret := "w" } (jwtSign 0 "user" "s" 0)
    3600 0 (Or.inl (by decide)) (by decide) (by decide)

/-- Claim C3: registering a previously unused, present email with a
non-empty password creates the account (201) with the hashed password and
role "user"; logging in afterwards with the same credentials succeeds
(200) with a fresh signed token; and any later registration with that
email answers 400. -/
theorem claimC3 (e p p2 secret : String) (now : Nat) (st : ServerState)
    (hfresh : st.users.find? (fun u => u.email = e) = none)
    (he : e ≠ "") (hp : p ≠ "") :
    (register e p st).1.status = 201 ∧
    ((register e p st).2).users.find? (fun u => u.email = e) =
      some { _id := st.nextId, email := e, password := bhash p, role := "user" } ∧
    (login e p secret now (register e p st).2).1 =
      ⟨200, .token (jwtSign st.nextId "user" secret now)⟩ ∧
    (register e p2 (register e p st).2).1.status = 400 := by
  have hcond : ¬(e = "" ∨ p = "") := by simp [he, hp]
  have hreg : register e p st =
      (⟨201, .msg "Registered successfully"⟩,
        { st with
          users := st.users ++ [{ _id := st.nextId, email := e, password := bhash p, role := "user" }]
          nextId := st.nextId + 1 }) := by
    unfold register
    rw [if_neg hcond, hfresh]
  have hfind : (st.users ++ [({ _id := st.nextId, email := e, password := bhash p, role := "user" } : User)]).find?
      (fun u => u.email = e) =
      some { _id := st.nextId, email := e, password := bhash p, role := "user" } := by
    rw [List.find?_append, hfresh]
    simp [List.find?]
  refine ⟨by rw [hreg], by rw [hreg]; exact hfind, ?_, ?_⟩
  · rw [hreg]
    simp [login, hfind, bcompare]
  · rw [hreg]
    by_cases hc2 : e = "" ∨ p2 = ""
    · simp [register, hc2]
    · simp [register, hc2, hfind]

/-- Witness for C3: a concrete register-login-register sequence from the
empty store. -/
theorem claimC3_witness :
    (register "a@b.c" "pw" initialState).1.status = 201 ∧
    ((register "a@b.c" "pw" initialState).2).users.find? (fun u => u.email = "a@b.c") =
      some { _id := 0, email := "a@b.c", password := bhash "pw", role := "user" } ∧
    (login "a@b.c" "pw" "s" 0 (register "a@b.c" "pw" initialState).2).1 =
      ⟨200, .token (jwtSign 0 "user" "s" 0)⟩ ∧
    (register "a@b.c" "q" (register "a@b.c" "pw" initialState).2).1.status = 400 :=
  claimC3 "a@b.c" "pw" "q" "s" 0 initialState rfl (by decide) (by decide)

/-- Claim C4: an admin create-member request carrying a file on the
passport-photo field whose content type is outside the JPEG/PNG
allow-list fails with 400, and the server state — members and stored
files alike — is untouched. -/
theorem claimC4 (pd : String → Option Int) (t : Token) (secret : String) (now : Nat)
    (b : MemberBody) (files : List FileUpload) (f : FileUpload) (st : ServerState)
    (hs : t.secret = secret) (hexp : now < t.exp) (hr : t.role = "admin")
    (hf : f ∈ files) (hfield : f.fieldname = "passportPhotos")
    (hm1 : f.mimetype ≠ "image/jpeg") (hm2 : f.mimetype ≠ "image/jpg")
    (hm3 : f.mimetype ≠ "image/png") :
    (postMembers pd (some t) secret now b files st).1.status = 400 ∧
    (postMembers pd (some t) secret now b files st).2 = st := by
  have hg := adminGate_pass t secret now hs hexp hr
  have hacc : acceptFile f = false := by
    simp [acceptFile, fileFilter, hfield, hm1, hm2, hm3]
  have hup : ∃ g, files.find? (fun x => !acceptFile x) = some g := by
    cases hfind : files.find? (fun x => !acceptFile x) with
    | some g => exact ⟨g, rfl⟩
    | none =>
      exfalso
      have := List.find?_eq_none.mp hfind f hf
      simp [hacc] at this
  obtain ⟨g, hgf⟩ := hup
  have hupload : ∃ msg, runUpload now files = Except.error msg := by
    simp only [runUpload, hgf]
    by_cases hg2 : fileFilter g
    · simp [hg2]
    · simp [hg2]
  obtain ⟨msg, hmsg⟩ := hupload
  refine ⟨?_, ?_⟩ <;> simp [postMembers, hg, hmsg]

/-- Witness for C4: a concrete PDF on the passport-photo field makes the
admin create-member request fail with 400 and leaves the state as it
was. -/
theorem claimC4_witness :
    (postMembers (fun _ => some 0) (some adminToken) "s" 0 okBody [badFile] initialState).1.status = 400 ∧
    (postMembers (fun _ => some 0) (some adminToken) "s" 0 okBody [badFile] initialState).2 = initialState :=
  claimC4 (fun _ => some 0) adminToken "s" 0 okBody [badFile] badFile initialState
    rfl (by decide) rfl (by simp) rfl (by decide) (by decide) (by decide)

/-- Counterexample to C5 as stated: a create-member request by an admin
with every required field non-empty is not always persisted with 201 —
a non-empty gender outside the schema's enum makes the save fail, so the
handler answers 500 and stores no member. -/
theorem claimC5_counterexample :
    memberBodyMissing badGenderBody = false ∧
    (postMembers (fun _ => some 0) (some adminToken) "s" 0 badGenderBody [] initialState).1.status = 500 ∧
    (postMembers (fun _ => some 0) (some adminToken) "s" 0 badGenderBody [] initialState).2.members = [] :=
  ⟨rfl, rfl, rfl⟩

/-- Claim C5, amended: for an admin create-member request whose upload
step succeeds, an empty required field gives a 400 with no member
persisted; otherwise, when the store schema accepts the assembled
document (enum fields inside their allowed values, dates and the
experience string parse), a member is created with 201, its
farmingExperience the integer coercion of the supplied string, its date
fields the parsed dates, and its membership status defaulting to
"Pending" when not supplied; when the schema rejects the document the
request fails with 500 and no member is persisted. -/
theorem claimC5 (pd : String → Option Int) (t : Token) (secret : String) (now : Nat)
    (b : MemberBody) (files : List FileUpload) (stored : List StoredFile) (st : ServerState)
    (hs : t.secret = secret) (hexp : now < t.exp) (hr : t.role = "admin")
    (hup : runUpload now files = .ok stored) :
    (memberBodyMissing b = true →
      (postMembers pd (some t) secret now b files st).1 = ⟨400, .msg "All required fields must be filled"⟩ ∧
      (postMembers pd (some t) secret now b files st).2.members = st.members) ∧
    (memberBodyMissing b = false →
      (memberValid (buildMember pd st.nextId b stored) = true →
        (postMembers pd (some t) secret now b files st).1 = ⟨201, .member (buildMember pd st.nextId b stored)⟩ ∧
        (postMembers pd (some t) secret now b files st).2.members = st.members ++ [buildMember pd st.nextId b stored] ∧
        (buildMember pd st.nextId b stored).farmingExperience = jsParseInt b.farmingExperience ∧
        (buildMember pd st.nextId b stored).dateOfBirth = pd b.dateOfBirth ∧
        (buildMember pd st.nextId b stored).dateEnrollment = pd b.dateEnrollment ∧
        (b.membershipStatus = none → (buildMember pd st.nextId b stored).membershipStatus = "Pending")) ∧
      (memberValid (buildMember pd st.nextId b stored) = false →
        (postMembers pd (some t) secret now b files st).1 = ⟨500, .msg "Error saving member"⟩ ∧
        (postMembers pd (some t) secret now b files st).2.members = st.members)) := by
  have hg := adminGate_pass t secret now hs hexp hr
  refine ⟨fun hmiss => ?_, fun hok => ⟨fun hval => ?_, fun hval => ?_⟩⟩
  · constructor <;> simp [postMembers, hg, hup, hmiss]
  · refine ⟨?_, ?_, rfl, rfl, rfl, fun hnone => by simp [buildMember, hnone]⟩ <;>
      simp [postMembers, hg, hup, hok, hval]
  · constructor <;> simp [postMembers, hg, hup, hok, hval]

/-- Witness for C5: a concrete well-formed body creates the member with
201 and the Pending default. -/
theorem claimC5_witness :
    (postMembers (fun _ => some 0) (some adminToken) "s" 0 okBody [] initialState).1 =
      ⟨201, .member (buildMember (fun _ => some 0) 0 okBody [])⟩ ∧
    (postMembers (fun _ => some 0) (some adminToken) "s" 0 okBody [] initialState).2.members =
      initialState.members ++ [buildMember (fun _ => some 0) 0 okBody []] ∧
    (buildMember (fun _ => some 0) 0 okBody []).membershipStatus = "Pending" := by
  have h := claimC5 (fun _ => some 0) adminToken "s" 0 okBody [] [] initialState
    rfl (by decide) rfl rfl
  have h2 := (h.2 rfl).1 rfl
  exact ⟨h2.1, h2.2.1, h2.2.2.2.2.2 rfl⟩

/-- Counterexample to C6 as stated: the member search does not match the
phone field case-insensitively.  A member whose phone holds upper-case
letters satisfies the claimed case-insensitive predicate for the query
"AB1", yet the handler returns the empty list. -/
theorem claimC6_counterexample :
    phoneMember ∈ searchState.members ∧
    claimedMatch "AB1" phoneMember = true ∧
    (getMembers (some adminToken) "s" 0 (some "AB1") searchState).1 = ⟨200, .members []⟩ := by
  refine ⟨by simp [searchState, initialState], by decide, rfl⟩

/-- Claim C6, amended: for an admin list-members request with a non-empty
search query, the response contains exactly those members whose name
(surname and other names), location or contact field contains the query
case-insensitively, or whose phone field contains the lowercased query as
a case-sensitive substring; with no query all members are returned. -/
theorem claimC6 (t : Token) (secret : String) (now : Nat) (st : ServerState) (q : String)
    (hs : t.secret = secret) (hexp : now < t.exp) (hr : t.role = "admin")
    (hq : jsToLower q ≠ "") :
    (∀ l, (getMembers (some t) secret now (some q) st).1.body = .members l →
      ∀ m, m ∈ l ↔ m ∈ st.members ∧
        (strIncludes (jsToLower (m.surname ++ " " ++ m.otherNames)) (jsToLower q) = true ∨
         strIncludes (jsToLower m.location) (jsToLower q) = true ∨
         strIncludes m.phone (jsToLower q) = true ∨
         strIncludes (jsToLower m.contact) (jsToLower q) = true)) ∧
    (getMembers (some t) secret now none st).1.body = .members st.members := by
  have hg := adminGate_pass t secret now hs hexp hr
  constructor
  · intro l hl m
    simp only [getMembers, hg] at hl
    rw [if_neg hq] at hl
    simp only [Body.members.injEq] at hl
    rw [← hl, List.mem_filter]
    simp [memberMatches, Bool.or_eq_true, or_assoc]
  · simp [getMembers, hg]

/-- Witness for C6: a concrete search for "LOC" over a one-member store
returns exactly that member, whose location matches case-insensitively;
with no query the whole store is returned. -/
theorem claimC6_witness :
    (phoneMember ∈ [phoneMember] ↔ phoneMember ∈ searchState.members ∧
      (strIncludes (jsToLower (phoneMember.surname ++ " " ++ phoneMember.otherNames)) (jsToLower "LOC") = true ∨
       strIncludes (jsToLower phoneMember.location) (jsToLower "LOC") = true ∨
       strIncludes phoneMember.phone (jsToLower "LOC") = true ∨
       strIncludes (jsToLower phoneMember.contact) (jsToLower "LOC") = true)) ∧
    (getMembers (some adminToken) "s" 0 none searchState).1.body = .members searchState.members := by
  have h := claimC6 adminToken "s" 0 searchState "LOC" rfl (by decide) rfl (by decide)
  exact ⟨h.1 [phoneMember] (by decide) phoneMember, h.2⟩

theorem mem_removeUrl (fs : List String) (o : Option String) (p : String) :
    p ∈ removeUrl fs o ↔ p ∈ fs ∧ ∀ u, o = some u → p ≠ "public" ++ u := by
  cases o with
  | none => simp [removeUrl]
  | some u =>
    simp only [removeUrl, List.mem_filter, decide_eq_true_eq]
    constructor
    · rintro ⟨h1, h2⟩
      exact ⟨h1, fun v hv => by cases hv; exact h2⟩
    · rintro ⟨h1, h2⟩
      exact ⟨h1, h2 u rfl⟩

/-- Claim C7: an admin delete-news request with an existing id answers
200, removes the record's image and video files (when present) from the
file area while every other file is retained, and a subsequent news
listing holds no item with that id; a non-existent id answers 404 with
the state — files included — untouched. -/
theorem claimC7 (t : Token) (secret : String) (now : Nat) (id : Nat) (st : ServerState)
    (hs : t.secret = secret) (hexp : now < t.exp) (hr : t.role = "admin") :
    (∀ n, st.news.find? (fun k => k._id = id) = some n →
      (deleteNews (some t) secret now id st).1 = ⟨200, .msg "News deleted successfully"⟩ ∧
      (∀ u, n.imageUrl = some u → ("public" ++ u) ∉ (deleteNews (some t) secret now id st).2.files) ∧
      (∀ u, n.videoUrl = some u → ("public" ++ u) ∉ (deleteNews (some t) secret now id st).2.files) ∧
      (∀ p, p ∈ st.files → (∀ u, n.imageUrl = some u → p ≠ "public" ++ u) →
        (∀ u, n.videoUrl = some u → p ≠ "public" ++ u) →
        p ∈ (deleteNews (some t) secret now id st).2.files) ∧
      (∀ l k, (listNews (deleteNews (some t) secret now id st).2).body = .newsItems l →
        k ∈ l → k._id ≠ id)) ∧
    (st.news.find? (fun k => k._id = id) = none →
      deleteNews (some t) secret now id st = (⟨404, .msg "News not found"⟩, st)) := by
  have hg := adminGate_pass t secret now hs hexp hr
  constructor
  · intro n hn
    have hdel : (deleteNews (some t) secret now id st).2 =
        { st with
          files := removeUrl (removeUrl st.files n.imageUrl) n.videoUrl
          news := st.news.filter (fun k => k._id ≠ id) } := by
      simp [deleteNews, hg, hn]
    refine ⟨by simp [deleteNews, hg, hn], ?_, ?_, ?_, ?_⟩
    · intro u hu hmem
      rw [hdel] at hmem
      have h1 := (mem_removeUrl _ _ _).mp hmem
      have h2 := (mem_removeUrl _ _ _).mp h1.1
      exact h2.2 u hu rfl
    · intro u hu hmem
      rw [hdel] at hmem
      have h1 := (mem_removeUrl _ _ _).mp hmem
      exact h1.2 u hu rfl
    · intro p hp himg hvid
      rw [hdel]
      exact (mem_removeUrl _ _ _).mpr ⟨(mem_removeUrl _ _ _).mpr ⟨hp, himg⟩, hvid⟩
    · intro l k hl hk
      rw [hdel] at hl
      simp only [listNews, Body.newsItems.injEq] at hl
      rw [← hl] at hk
      have hk2 := List.mem_mergeSort.mp hk
      have hk3 := List.mem_filter.mp hk2
      simpa using hk3.2
  · intro hn
    simp [deleteNews, hg, hn]

/-- Witness for C7: deleting the concrete one-image news record removes
its file, retains the unrelated file, and an unknown id is a 404 leaving
the state untouched. -/
theorem claimC7_witness :
    (deleteNews (some adminToken) "s" 0 5 newsState).1 = ⟨200, .msg "News deleted successfully"⟩ ∧
    ("public" ++ "/uploads/img.png") ∉ (deleteNews (some adminToken) "s" 0 5 newsState).2.files ∧
    "public/uploads/other.bin" ∈ (deleteNews (some adminToken) "s" 0 5 newsState).2.files ∧
    deleteNews (some adminToken) "s" 0 99 newsState = (⟨404, .msg "News not found"⟩, newsState) := by
  have h := claimC7 adminToken "s" 0 5 newsState rfl (by decide) rfl
  have h99 := claimC7 adminToken "s" 0 99 newsState rfl (by decide) rfl
  have h1 := h.1 newsItem (by decide)
  refine ⟨h1.1, h1.2.1 "/uploads/img.png" rfl, ?_, h99.2 (by decide)⟩
  refine h1.2.2.2.1 "public/uploads/other.bin" (by decide) ?_ ?_
  · intro u hu
    cases hu
    decide
  · intro u hu
    cases hu

/-- Claim C8: a contact submission with all three fields present persists
the Contact and answers 201 whether or not the relay succeeds; on relay
failure the 201 carries the degraded "saved but notification failed"
message, and the stored Contact is never rolled back. -/
theorem claimC8 (name email message : String) (relayOk : Bool) (st : ServerState)
    (hn : name ≠ "") (he : email ≠ "") (hm : message ≠ "") :
    (postContact name email message relayOk st).1.status = 201 ∧
    (postContact name email message relayOk st).2.contacts =
      st.contacts ++ [{ name := name, email := email, message := message }] ∧
    (relayOk = false →
      (postContact name email message relayOk st).1 =
        ⟨201, .msg "Message saved, but email notification failed"⟩) := by
  have hcond : ¬(name = "" ∨ email = "" ∨ message = "") := by simp [hn, he, hm]
  refine ⟨?_, ?_, fun hrel => ?_⟩
  · cases relayOk <;> simp [postContact, hcond]
  · cases relayOk <;> simp [postContact, hcond]
  · subst hrel
    simp [postContact, hcond]

/-- Witness for C8: a concrete submission with a failing relay still
answers 201 with the degraded message and the Contact stored. -/
theorem claimC8_witness :
    (postContact "A" "a@b.com" "hi" false initialState).1.status = 201 ∧
    (postContact "A" "a@b.com" "hi" false initialState).2.contacts =
      initialState.contacts ++ [{ name := "A", email := "a@b.com", message := "hi" }] ∧
    (false = false →
      (postContact "A" "a@b.com" "hi" false initialState).1 =
        ⟨201, .msg "Message saved, but email notification failed"⟩) :=
  claimC8 "A" "a@b.com" "hi" false initialState (by decide) (by decide) (by decide)

/-- Claim C9: every account the register endpoint creates carries role
"user", so a token obtained by any register-then-login sequence from the
empty store has role "user" and never passes the admin role gate. -/
theorem claimC9 (reqs : List (String × String)) (e p secret : String)
    (now now2 : Nat) (u : User) (tok : Token)
    (hu : u ∈ (runRegisters reqs initialState).users)
    (hlog : (login e p secret now (runRegisters reqs initialState)).1.body = .token tok) :
    u.role = "user" ∧ tok.role = "user" ∧
    (adminGate (some tok) secret now2).isPass = false := by
  have hroles := runRegisters_roles reqs initialState
    (by intro v hv; simp [initialState] at hv)
  obtain ⟨v, _, hvmem, htok⟩ :=
    login_token_shape e p secret now (runRegisters reqs initialState) tok hlog
  have hrole : tok.role = "user" := by
    rw [htok]
    exact hroles v hvmem
  refine ⟨hroles u hu, hrole, ?_⟩
  simp only [adminGate, verifyToken]
  by_cases hc : tok.secret = secret ∧ now2 < tok.exp
  · rw [if_pos hc]
    simp [isAdminCheck, AuthOutcome.isPass, hrole]
  · rw [if_neg hc]
    rfl

/-- Witness for C9: from the empty store, registering one account and
logging in yields a role-"user" token that the admin gate rejects. -/
theorem claimC9_witness :
    ({ _id := 0, email := "a@b.c", password := bhash "pw", role := "user" } : User).role = "user" ∧
    (jwtSign 0 "user" "s" 0).role = "user" ∧
    (adminGate (some (jwtSign 0 "user" "s" 0)) "s" 0).isPass = false :=
  claimC9 [("a@b.c", "pw")] "a@b.c" "pw" "s" 0 0
    { _id := 0, email := "a@b.c", password := bhash "pw", role := "user" }
    (jwtSign 0 "user" "s" 0) (by decide) (by decide)

/-- Claim C10: the content-type allow-list binds only files whose field
name is exactly "passportPhotos" — any file the filter rejects is on that
field — and a file on any other field (here the news video field) is
accepted whatever its content type, subject only to the 10 MiB size
limit, and ends up stored in the file area. -/
theorem claimC10 (f g : FileUpload) (t : Token) (secret : String) (now : Nat)
    (title description : String) (st : ServerState)
    (hfield : f.fieldname ≠ "passportPhotos") (hsize : f.size ≤ fileSizeLimit)
    (hgfil : fileFilter g = false)
    (hs : t.secret = secret) (hexp : now < t.exp) (hr : t.role = "admin")
    (ht : title ≠ "") (hd : description ≠ "") :
    acceptFile f = true ∧
    g.fieldname = "passportPhotos" ∧
    (postNews (some t) secret now title description [f] st).1.status = 201 ∧
    diskOf { fieldname := f.fieldname, filename := genFilename now f } ∈
      (postNews (some t) secret now title description [f] st).2.files := by
  have hgate := adminGate_pass t secret now hs hexp hr
  have hacc : acceptFile f = true := by
    simp [acceptFile, fileFilter, hfield, hsize]
  have hgf : g.fieldname = "passportPhotos" := by
    by_contra hne
    simp [fileFilter, hne] at hgfil
  have hup : runUpload now [f] =
      .ok [{ fieldname := f.fieldname, filename := genFilename now f }] := by
    simp [runUpload, List.find?, hacc]
  have hcond : ¬(title = "" ∨ description = "") := by simp [ht, hd]
  refine ⟨hacc, hgf, ?_, ?_⟩ <;> simp [postNews, hgate, hup, hcond]

/-- Witness for C10: an executable on the news video field passes the
filter and is stored, while a PDF on the passport-photo field is exactly
what the filter rejects. -/
theorem claimC10_witness :
    acceptFile { fieldname := "video", originalname := "v.exe", mimetype := "application/x-msdownload", size := 5 } = true ∧
    badFile.fieldname = "passportPhotos" ∧
    (postNews (some adminToken) "s" 0 "t" "d" [{ fieldname := "video", originalname := "v.exe", mimetype := "application/x-msdownload", size := 5 }] initialState).1.status = 201 ∧
    diskOf { fieldname := "video", filename := genFilename 0 { fieldname := "video", originalname := "v.exe", mimetype := "application/x-msdownload", size := 5 } } ∈
      (postNews (some adminToken) "s" 0 "t" "d" [{ fieldname := "video", originalname := "v.exe", mimetype := "application/x-msdownload", size := 5 }] initialState).2.files :=
  claimC10 { fieldname := "video", originalname := "v.exe", mimetype := "application/x-msdownload", size := 5 }
    badFile adminToken "s" 0 "t" "d" initialState
    (by decide) (by decide) (by decide) rfl (by decide) rfl (by decide) (by decide)

end Pswfa
